import Mathlib

/-!
Formal model of the French-learning-agent repository.

The repository contains two cooperating implementations of a phase-based
French micro-tutor:

* Variant A: `App.tsx` together with the hardcoded-question service
  (`geminiService.sendMessage` in `src/unnamed/part_003`, types in
  `src/unnamed/part_002`).  All phase/state transitions are decided locally
  in TypeScript; the generative model only produces display text.
* Variant B: the `App` in `src/unnamed/part_001` together with
  `src/services/geminiService.ts` (`callGemini` / `buildGeminiPrompt`).
  The phase-transition and command-override rules are stated as literal
  instructions inside `buildGeminiPrompt`; the client commits whatever
  state the generator returns.

Every definition below is translated from the source; definitions that
formalise rule text literally present in `buildGeminiPrompt` say so in
their doc comment.  Definitions whose name matches a source symbol embed
that symbol.
-/

namespace FrenchTutor

/-! ## Variant A: data model (src/unnamed/part_002, second section) -/

/-- The phase enumeration of variant A (`TutorResponse['phase']` in
`src/unnamed/part_002`): no `paused` member exists in this variant. -/
inductive TutorPhase where
  | intro | teach | ask | evaluate | report | completed
  deriving DecidableEq, Repr

/-- `Choice` from `src/unnamed/part_002`. -/
structure Choice where
  id : Nat
  label : String
  deriving DecidableEq, Repr

/-- `QuestionData` from `src/unnamed/part_002`. -/
structure QuestionData where
  id : Nat
  question : String
  choices : List Choice
  correctAnswerId : Nat
  correctAnswerLabel : String
  deriving DecidableEq, Repr

/-- `TutorState` (`{ q, score }`) from `src/unnamed/part_002`. -/
structure TutorState where
  q : Nat
  score : Nat
  deriving DecidableEq, Repr

/-- The UI screen tags of variant A. -/
inductive ScreenA where
  | intro | lesson | question | feedback | final
  deriving DecidableEq, Repr

/-- The UI input kinds of variant A. -/
inductive InputA where
  | none | multipleChoice
  deriving DecidableEq, Repr

/-- `TutorUI` from `src/unnamed/part_002`. -/
structure TutorUI where
  screen : ScreenA
  text : String
  choices : List Choice
  input : InputA
  progress : Nat
  deriving DecidableEq, Repr

/-- `TutorResponse` from `src/unnamed/part_002` (the empty `data` record is
omitted: it carries no information). -/
structure TutorResponse where
  phase : TutorPhase
  state : TutorState
  ui : TutorUI
  deriving DecidableEq, Repr

/-- The hardcoded question bank `QUESTIONS` from `src/unnamed/part_003`. -/
def QUESTIONS : List QuestionData :=
  [ { id := 0
      question := "What does 'Bonjour' mean in French?"
      choices := [⟨0, "Good afternoon"⟩, ⟨1, "Hello / Good day"⟩,
                  ⟨2, "Good evening"⟩, ⟨3, "Goodbye"⟩]
      correctAnswerId := 1
      correctAnswerLabel := "Hello / Good day" },
    { id := 1
      question := "How do you say 'Thank you' in French?"
      choices := [⟨0, "Au revoir"⟩, ⟨1, "Oui"⟩, ⟨2, "Merci"⟩, ⟨3, "Non"⟩]
      correctAnswerId := 2
      correctAnswerLabel := "Merci" },
    { id := 2
      question := "What is 'Au revoir' used for?"
      choices := [⟨0, "Greeting someone"⟩, ⟨1, "Asking for help"⟩,
                  ⟨2, "Saying goodbye"⟩, ⟨3, "Expressing gratitude"⟩]
      correctAnswerId := 2
      correctAnswerLabel := "Saying goodbye" },
    { id := 3
      question := "Which phrase means 'Please'?"
      choices := [⟨0, "Excusez-moi"⟩, ⟨1, "S'il vous plaît"⟩,
                  ⟨2, "De rien"⟩, ⟨3, "Je t'aime"⟩]
      correctAnswerId := 1
      correctAnswerLabel := "S'il vous plaît" },
    { id := 4
      question := "If you want to apologize or get attention, you say:"
      choices := [⟨0, "Ça va?"⟩, ⟨1, "Bonne nuit"⟩,
                  ⟨2, "Excusez-moi"⟩, ⟨3, "Enchanté"⟩]
      correctAnswerId := 2
      correctAnswerLabel := "Excusez-moi" } ]

/-- `getProgress` from `src/unnamed/part_003` (lines 68-73):
`intro` gives 0, `teach` gives 10, `report` or an exhausted index gives 100,
every other case gives `10 + q * 18`. -/
def getProgress (q : Nat) (phase : TutorPhase) : Nat :=
  if phase = .intro then 0
  else if phase = .teach then 10
  else if phase = .report ∨ QUESTIONS.length ≤ q then 100
  else 10 + q * 18

/-- The fallback `TutorResponse` returned by the `catch` block of
`sendMessage` (`src/unnamed/part_003` lines 234-246): phase and state are
echoed back unchanged. -/
def fallbackResponse (currentPhase : TutorPhase) (currentQ currentScore : Nat) :
    TutorResponse :=
  { phase := currentPhase
    state := ⟨currentQ, currentScore⟩
    ui := { screen := .intro
            text := "Error: Failed to load tutor content. Please check your network and API key."
            choices := []
            input := .none
            progress := getProgress currentQ currentPhase } }

/-- `geminiService.sendMessage` from `src/unnamed/part_003`.

The external `generateContent` calls are modelled by the oracle
`gen : Option String`: `some t` means every generation attempt inside the
`try` block succeeds and returns text `t`; `none` means the attempt throws,
in which case control reaches the `catch` block and `fallbackResponse` is
returned.  The `teach` branch and the `evaluate → ask` branch perform no
generation call in the source, so they cannot fail.  An out-of-range
question lookup (`QUESTIONS[currentQ]` with `currentQ ≥ 5` in the `ask`
branch) throws a `TypeError` in JavaScript and likewise lands in the
`catch` block. -/
def sendMessage (gen : Option String) (currentPhase : TutorPhase)
    (currentQ currentScore : Nat) (userInput : Option Nat) : TutorResponse :=
  match currentPhase with
  | .intro =>
      -- Transition from intro to teach; the intro branch awaits one generation.
      match gen with
      | some t =>
          { phase := .teach, state := ⟨currentQ, currentScore⟩
            ui := ⟨.lesson, t, [], .none, getProgress currentQ .teach⟩ }
      | none => fallbackResponse currentPhase currentQ currentScore
  | .teach =>
      -- Transition from teach to ask: question text comes from QUESTIONS, no
      -- generation call is made.
      match QUESTIONS[0]? with
      | some questionData =>
          { phase := .ask, state := ⟨0, currentScore⟩
            ui := ⟨.question, questionData.question, questionData.choices,
                   .multipleChoice, getProgress 0 .ask⟩ }
      | none => fallbackResponse currentPhase currentQ currentScore
  | .ask =>
      -- Evaluate the answer: correctness is decided locally against the
      -- stored correctAnswerId; both feedback branches await one generation.
      match QUESTIONS[currentQ]? with
      | some currentQuestion =>
          let isCorrect := userInput = some currentQuestion.correctAnswerId
          let nextScore := if isCorrect then currentScore + 1 else currentScore
          match gen with
          | some t =>
              { phase := .evaluate, state := ⟨currentQ, nextScore⟩
                ui := ⟨.feedback, t, [], .none, getProgress currentQ .evaluate⟩ }
          | none => fallbackResponse currentPhase currentQ currentScore
      | none => fallbackResponse currentPhase currentQ currentScore
  | .evaluate =>
      -- After feedback, move to the next question or to the report.
      let nextQ := currentQ + 1
      if h : nextQ < QUESTIONS.length then
        let questionData := QUESTIONS.get ⟨nextQ, h⟩
        { phase := .ask, state := ⟨nextQ, currentScore⟩
          ui := ⟨.question, questionData.question, questionData.choices,
                 .multipleChoice, getProgress nextQ .ask⟩ }
      else
        match gen with
        | some t =>
            { phase := .report, state := ⟨nextQ, currentScore⟩
              ui := ⟨.final, t, [], .none, getProgress nextQ .report⟩ }
        | none => fallbackResponse currentPhase currentQ currentScore
  | .report =>
      match gen with
      | some t =>
          { phase := .completed, state := ⟨currentQ, currentScore⟩
            ui := ⟨.final, t, [], .none, getProgress currentQ .completed⟩ }
      | none => fallbackResponse currentPhase currentQ currentScore
  | .completed =>
      -- No if-branch matches in the source: the initial local values are
      -- returned with the phase and state unchanged.
      { phase := currentPhase, state := ⟨currentQ, currentScore⟩
        ui := ⟨.intro, "", [], .none, getProgress currentQ currentPhase⟩ }

/-- Whether the `sendMessage` branch selected by `(phase, q)` reaches an
external `generateContent` call in the source (the `teach` branch and the
`evaluate → ask` branch build their text from `QUESTIONS` without calling
the generator; the `ask` branch with an exhausted index throws on the
question lookup before any generation attempt). -/
def usesGenerator (phase : TutorPhase) (q : Nat) : Bool :=
  match phase with
  | .intro => true
  | .teach => false
  | .ask => q < QUESTIONS.length
  | .evaluate => ¬ (q + 1 < QUESTIONS.length)
  | .report => true
  | .completed => false

/-- The session state committed by `App.tsx` after each turn
(`currentPhaseRef` / `currentQRef` / `currentScoreRef`). -/
structure SessState where
  phase : TutorPhase
  q : Nat
  score : Nat
  deriving DecidableEq, Repr

/-- One committed turn of variant A: `processTutorTurn` (`App.tsx` lines
31-55) copies `response.phase` and `response.state` into the session refs. -/
def stepA (s : SessState) (gen : Option String) (inp : Option Nat) : SessState :=
  let r := sendMessage gen s.phase s.q s.score inp
  ⟨r.phase, r.state.q, r.state.score⟩

/-- A sequence of committed turns, each with its own generator outcome and
optional selected choice id. -/
def runA (s : SessState) : List (Option String × Option Nat) → SessState
  | [] => s
  | (g, i) :: rest => runA (stepA s g i) rest

/-- The initial session state (`INITIAL_TUTOR_STATE` in `App.tsx`):
phase `intro`, `q = 0`, `score = 0`. -/
def initA : SessState := ⟨.intro, 0, 0⟩

/-- Result of one invocation of `handleAction` (`App.tsx` lines 69-118):
either an error is signalled and the handler returns without any turn
(`setError(...); return;`), or one `processTutorTurn` call is issued with
the given arguments. The `completed` branch resets the refs and replays the
initial turn, which amounts to `turn intro 0 0 none`. -/
inductive ActionResult where
  | error (msg : String)
  | turn (phase : TutorPhase) (q score : Nat) (input : Option Nat)
  deriving DecidableEq, Repr

/-- `handleAction` from `App.tsx` (lines 69-118), as a pure function of the
current refs and the optional `actionInput`. -/
def handleAction (currentPhase : TutorPhase) (currentQ currentScore : Nat)
    (actionInput : Option Nat) : ActionResult :=
  match currentPhase with
  | .intro => .turn .teach currentQ currentScore actionInput
  | .teach => .turn .ask 0 currentScore actionInput
  | .ask =>
      match actionInput with
      | none => .error "Please select an answer."
      | some i => .turn .evaluate currentQ currentScore (some i)
  | .evaluate =>
      let nextQ := currentQ + 1
      if nextQ < 5 then .turn .ask nextQ currentScore actionInput
      else .turn .report nextQ currentScore actionInput
  | .report => .turn .completed currentQ currentScore actionInput
  | .completed => .turn .intro 0 0 none

/-! ## Variant B: data model (src/unnamed/part_004, src/unnamed/part_001,
src/services/geminiService.ts) -/

/-- JavaScript `String.prototype.trim`, modelled over the character list:
leading and trailing whitespace removed. -/
def jsTrim (s : String) : String :=
  String.mk (((s.toList.dropWhile Char.isWhitespace).reverse.dropWhile
    Char.isWhitespace).reverse)

/-- JavaScript `String.prototype.toLowerCase`, modelled over the character
list (the command vocabulary it is applied to is plain ASCII). -/
def jsToLower (s : String) : String :=
  String.mk (s.toList.map Char.toLower)

/-- The `Phase` enumeration of variant B (`src/unnamed/part_004`), which
includes `paused`. -/
inductive PhaseB where
  | intro | teach | ask | evaluate | report | completed | paused
  deriving DecidableEq, Repr

/-- `Option` (an answer choice) from `src/unnamed/part_004`. -/
structure BOption where
  id : Nat
  label : String
  deriving DecidableEq, Repr

/-- `State` (`{ question_index, score }`) from `src/unnamed/part_004`. -/
structure BState where
  question_index : Nat
  score : Nat
  deriving DecidableEq, Repr

/-- The input types of variant B. -/
inductive InputB where
  | none | multipleChoice
  deriving DecidableEq, Repr

/-- `Interface` from `src/unnamed/part_004`. -/
structure BInterface where
  title : String
  content : String
  instructions : String
  input_type : InputB
  options : Option (List BOption)
  progress : Nat
  deriving DecidableEq, Repr

/-- `PhaseResponse` from `src/unnamed/part_004`: what `JSON.parse` is cast
to in `callGemini` (the `interface` field is named `iface` because
`interface` shadows poorly inside Lean structure syntax). -/
structure PhaseResponse where
  phase : PhaseB
  state : BState
  iface : BInterface
  correct_answer_id : Option Nat
  deriving DecidableEq, Repr

/-- The tutor ref state of variant B (`tutorStateRef` in
`src/unnamed/part_001` lines 14-20). -/
structure TutorStateB where
  question_index : Nat
  score : Nat
  currentPhase : PhaseB
  correctAnswerId : Option Nat
  selectedOptionLabel : Option String
  deriving DecidableEq, Repr

/-- `handleOptionSelect` from `src/unnamed/part_001` (lines 64-83).

Returns `none` when the guard `currentPhase !== 'ask' || isLoading` fires:
the handler returns immediately, mutating nothing and issuing no
generation request.  Otherwise it returns the updated ref state together
with the `isCorrect` flag passed to `fetchGeminiResponse`. -/
def handleOptionSelect (st : TutorStateB) (isLoading : Bool)
    (selectedOptionId : Nat) (selectedOptionLabel : String) :
    Option (TutorStateB × Bool) :=
  if st.currentPhase ≠ .ask ∨ isLoading then none
  else
    let isCorrect := st.correctAnswerId = some selectedOptionId
    some ({ st with
              score := if isCorrect then st.score + 1 else st.score
              question_index := st.question_index + 1
              selectedOptionLabel := some selectedOptionLabel
              currentPhase := .evaluate },
          isCorrect)

/-- The command string actually submitted by `handleCommandSubmit`
(`src/unnamed/part_001` lines 113-122): the raw text is trimmed and
lowercased, and `"continue"` is rewritten to `"resume"` exactly when the
current phase is `paused`. -/
def handleCommandSubmit (raw : String) (currentPhase : PhaseB) : String :=
  let command := jsToLower (jsTrim raw)
  if command = "continue" ∧ currentPhase = .paused then "resume" else command

/-- The `LearnerCommand` variants named by the spec. -/
inductive LearnerCommand where
  | review | clarify | reportIssue | pause | resume | exit | unrecognized
  deriving DecidableEq, Repr

/-- Which of the `Specific Command Handling Rules` stated in
`buildGeminiPrompt` (`src/services/geminiService.ts` lines 28-61) fires for
a submitted command string: exact matches on `review`, `clarify`,
`report_issue`, `pause`, `exit`; `resume` only when the current phase is
`paused`; everything else falls to the unrecognized-input rule. -/
def promptClassify (cmd : String) (currentPhase : PhaseB) : LearnerCommand :=
  if cmd = "review" then .review
  else if cmd = "clarify" then .clarify
  else if cmd = "report_issue" then .reportIssue
  else if cmd = "pause" then .pause
  else if cmd = "resume" ∧ currentPhase = .paused then .resume
  else if cmd = "exit" then .exit
  else .unrecognized

/-- End-to-end classification of raw learner text into a `LearnerCommand`
variant: client-side normalisation (`handleCommandSubmit`) followed by the
rule matching of `buildGeminiPrompt`. -/
def classifyCommand (raw : String) (currentPhase : PhaseB) : LearnerCommand :=
  promptClassify (handleCommandSubmit raw currentPhase) currentPhase

/-- The phase/state decided by the command-override rules literally stated
in `buildGeminiPrompt` (`src/services/geminiService.ts` lines 28-61); in
this variant the phase controller is this rule text, which the generator is
instructed to execute verbatim.  `selectedOptionLabel` is consulted by the
`review` rule only for display content, which is not modelled here;
`totalQuestions` is `TOTAL_QUESTIONS` from the (absent) constants module,
kept as a parameter.  The rules state for every command that the numeric
state must not change; `resume` picks `ask` when `question_index <
totalQuestions`, `report` when it equals `totalQuestions`, and otherwise
falls back to `teach`. -/
def promptCommandAdvance (currentPhase : PhaseB) (st : BState)
    (_selectedOptionLabel : Option String) (cmd : LearnerCommand)
    (totalQuestions : Nat) : PhaseB × BState :=
  match cmd with
  | .review | .clarify =>
      -- "Remain currentPhase. If currentPhase was evaluate and next would
      -- be ask, then phase becomes ask."  Per phase rule 4, the next phase
      -- out of evaluate is ask exactly when question_index < totalQuestions.
      (if currentPhase = .evaluate ∧ st.question_index < totalQuestions
       then .ask else currentPhase, st)
  | .reportIssue => (.paused, st)
  | .pause => (.paused, st)
  | .resume =>
      (if st.question_index < totalQuestions then .ask
       else if st.question_index = totalQuestions then .report
       else .teach, st)
  | .exit => (.completed, st)
  | .unrecognized => (currentPhase, st)

/-! ## Variant B: `callGemini` response handling
(`src/services/geminiService.ts` lines 169-208) -/

/-- JavaScript `lastIndexOf` for a pattern over a character list: the
largest index at which the pattern starts, or `none` (JS `-1`) when the
pattern does not occur. -/
def listLastIndexOf (l pat : List Char) : Option Nat :=
  ((List.range (l.length + 1)).filter fun i => List.isPrefixOf pat (l.drop i)).getLast?

/-- JavaScript `String.prototype.substring` restricted to non-negative
indices: swaps its arguments when `a > b` and clamps to the length. -/
def jsSubstring (l : List Char) (a b : Nat) : List Char :=
  if a ≤ b then (l.take b).drop a else (l.take a).drop b

/-- The markdown-fence cleanup inside `callGemini` (lines 184-191): if the
trimmed response starts with three backticks and `json`, keep
`substring(7, lastIndexOf of the fence)`; if it merely starts with three
backticks, keep `substring(3, lastIndexOf of the fence)`; then trim.  When
`lastIndexOf` returns JS `-1`, `substring` clamps it to `0` as modelled by
`jsSubstring`. -/
def cleanFences (rawJson : String) : String :=
  let cs := rawJson.toList
  let fence := "```".toList
  if List.isPrefixOf "```json".toList cs then
    jsTrim (String.mk (jsSubstring cs 7 ((listLastIndexOf cs fence).getD 0)))
  else if List.isPrefixOf fence cs then
    jsTrim (String.mk (jsSubstring cs 3 ((listLastIndexOf cs fence).getD 0)))
  else jsTrim rawJson

/-- The generic message `callGemini` throws to its caller on any failure
(the source refines the wording for 400/500/429 errors; the refinement
changes only the message text, never the control flow, and is not
modelled). -/
def geminiFailureMessage : String :=
  "Failed to get response from AI tutor. Please try again."

/-- The response handling of `callGemini` (`src/services/geminiService.ts`
lines 169-208).

`generated` is the outcome of the single `generateContent` call: `none`
when the call throws, `some t` when it returns text `t`.  `JSON.parse`
followed by the unchecked cast `as PhaseResponse` is the external JS
library call, modelled by the `parse` parameter.  The source performs
exactly one generation attempt and returns whatever parses, with no
structural validation and no retry; every failure is thrown immediately. -/
def callGemini (parse : String → Option PhaseResponse)
    (generated : Option String) : Except String PhaseResponse :=
  match generated with
  | none => .error geminiFailureMessage
  | some t =>
      let rawJson := jsTrim t
      if rawJson = "" then .error geminiFailureMessage
      else
        match parse (cleanFences rawJson) with
        | some r => .ok r
        | none => .error geminiFailureMessage

/-! ## Definitions following the spec's words (for comparison only) -/

/-- Rounding of `a / b` to the nearest integer, halves up, as JavaScript
`Math.round(a / b)` for non-negative operands: used to state the spec's
progress formula `10 + round(questionIndex / totalQuestions * 90)`. -/
def roundHalfUp (a b : Nat) : Nat := (2 * a + b) / (2 * b)

/-- Modelled from the spec: the progress percentage claimed in §4.1 of the
spec, `Intro→0, Teach→10, Ask/Evaluate→10 + round(q / total * 90),
Report/Completed→100`, stated for comparison against `getProgress`. -/
def specProgress (phase : TutorPhase) (q total : Nat) : Nat :=
  match phase with
  | .intro => 0
  | .teach => 10
  | .ask | .evaluate => 10 + roundHalfUp (q * 90) total
  | .report | .completed => 100

/-! ## Invariant machinery for the variant-A session -/

/-- Inductive invariant of variant-A session states reachable from
`initA`: the question index never exceeds the question count, the score
never exceeds the question index except in `evaluate`, where it may exceed
it by exactly one (the score for the current question is committed on
entry to `evaluate` while the index advances on exit). -/
def InvA (s : SessState) : Prop :=
  s.q ≤ QUESTIONS.length ∧
  match s.phase with
  | .intro => s.q = 0 ∧ s.score = 0
  | .teach => s.q = 0 ∧ s.score = 0
  | .ask => s.q + 1 ≤ QUESTIONS.length ∧ s.score ≤ s.q
  | .evaluate => s.q + 1 ≤ QUESTIONS.length ∧ s.score ≤ s.q + 1
  | .report => s.score ≤ s.q
  | .completed => s.score ≤ s.q

theorem InvA_init : InvA initA := by
  simp [InvA, initA]

theorem InvA_step (s : SessState) (g : Option String) (i : Option Nat)
    (h : InvA s) : InvA (stepA s g i) := by
  obtain ⟨p, q, sc⟩ := s
  cases p <;> simp only [InvA, stepA, sendMessage] at h ⊢
  case intro =>
    cases g <;> simp [fallbackResponse] <;> omega
  case teach =>
    simp [QUESTIONS]
    omega
  case ask =>
    rcases hQ : QUESTIONS[q]? with _ | qd <;>
      cases g <;> simp [fallbackResponse] <;> (try split) <;> omega
  case evaluate =>
    split
    · simp; omega
    · cases g <;> simp [fallbackResponse] <;> omega
  case report =>
    cases g <;> simp [fallbackResponse] <;> omega
  case completed =>
    simpa using h

theorem stepA_q_mono (s : SessState) (g : Option String) (i : Option Nat)
    (h : InvA s) : s.q ≤ (stepA s g i).q := by
  obtain ⟨p, q, sc⟩ := s
  cases p <;> simp only [InvA, stepA, sendMessage] at h ⊢
  case intro =>
    cases g <;> simp [fallbackResponse]
  case teach =>
    simp [QUESTIONS]
    omega
  case ask =>
    rcases hQ : QUESTIONS[q]? with _ | qd <;>
      cases g <;> simp [fallbackResponse]
  case evaluate =>
    split
    · simp
    · cases g <;> simp [fallbackResponse]
  case report =>
    cases g <;> simp [fallbackResponse]
  case completed =>
    simp

theorem InvA_runA (l : List (Option String × Option Nat)) (s : SessState)
    (h : InvA s) : InvA (runA s l) := by
  induction l generalizing s with
  | nil => exact h
  | cons gi rest ih => exact ih _ (InvA_step _ _ _ h)

theorem runA_q_mono (l : List (Option String × Option Nat)) (s : SessState)
    (h : InvA s) : s.q ≤ (runA s l).q := by
  induction l generalizing s with
  | nil => exact Nat.le_refl _
  | cons gi rest ih =>
      exact Nat.le_trans (stepA_q_mono s gi.1 gi.2 h)
        (by simpa [runA] using ih _ (InvA_step s gi.1 gi.2 h))

theorem runA_append (s : SessState) (l m : List (Option String × Option Nat)) :
    runA s (l ++ m) = runA (runA s l) m := by
  induction l generalizing s with
  | nil => rfl
  | cons gi rest ih => simpa [runA] using ih (stepA s gi.1 gi.2)

/-! ## Claim theorems -/

/-- Claim C1, counterexample to the claim as stated: starting in `ask` at
question 0 with score 0 and the correct selection (option 1), the
Ask→Evaluate step already commits the score increment (score becomes 1),
and the subsequent call with current phase `evaluate` leaves the score
unchanged (1, not 2) — so the score update does not happen at the Evaluate
commit, contradicting the claim. -/
theorem evaluate_does_not_commit_score :
    stepA ⟨.ask, 0, 0⟩ (some "t") (some 1) = ⟨.evaluate, 0, 1⟩ ∧
    stepA (stepA ⟨.ask, 0, 0⟩ (some "t") (some 1)) (some "t") none = ⟨.ask, 1, 1⟩ := by
  decide

/-- Claim C1 (amended): a call with current phase `evaluate` moves to `ask`
with the question index incremented when `questionIndex < totalQuestions −
1`, and to `report` with the index incremented otherwise; the score is left
unchanged by this step (its ±1 update is committed earlier, on the
Ask→Evaluate step).  Both the service transition (`sendMessage`) and the UI
transition (`handleAction`, `App.tsx` lines 94-100) agree. -/
theorem evaluate_advance (q sc : Nat) (g : String) (i : Option Nat) :
    stepA ⟨.evaluate, q, sc⟩ (some g) i =
      (if q + 1 < QUESTIONS.length then ⟨.ask, q + 1, sc⟩
       else ⟨.report, q + 1, sc⟩) ∧
    handleAction .evaluate q sc i =
      (if q + 1 < 5 then .turn .ask (q + 1) sc i
       else .turn .report (q + 1) sc i) := by
  constructor
  · simp only [stepA, sendMessage]
    split <;> simp_all
  · rfl

/-- Claim C2, counterexample to the claim as stated: the command-free turn
sequence continue, continue, selectOption(1) (the correct answer to
question 0) reaches the state (evaluate, questionIndex = 0, score = 1), in
which `score ≤ questionIndex` fails. -/
theorem score_can_exceed_questionIndex :
    ¬ ((runA initA [(some "t", none), (some "t", none), (some "t", some 1)]).score
        ≤ (runA initA [(some "t", none), (some "t", none), (some "t", some 1)]).q) := by
  decide

/-- Claim C2 (amended): in every state reachable from the initial state by
command-free continue/selectOption turns, `questionIndex ≤ totalQuestions`
holds, `score ≤ questionIndex + 1` holds, `score ≤ questionIndex` holds in
every phase other than `evaluate` (on entry to `evaluate` the score is
committed before the index advances, so it may exceed the index by exactly
one there), and the question index is monotonically non-decreasing across
the sequence. -/
theorem session_invariant (l m : List (Option String × Option Nat)) :
    (runA initA l).q ≤ QUESTIONS.length ∧
    (runA initA l).score ≤ (runA initA l).q + 1 ∧
    ((runA initA l).phase ≠ .evaluate → (runA initA l).score ≤ (runA initA l).q) ∧
    (runA initA l).q ≤ (runA initA (l ++ m)).q := by
  have h := InvA_runA l initA InvA_init
  have hmono : (runA initA l).q ≤ (runA initA (l ++ m)).q := by
    rw [runA_append]
    exact runA_q_mono m _ h
  refine ⟨?_, ?_, ?_, hmono⟩ <;>
  · rcases hr : runA initA l with ⟨p, q, sc⟩
    rw [hr] at h
    rcases h with ⟨h1, h2⟩
    cases p <;> simp_all [InvA] <;> omega

/-- Claim C3: when the external content generation fails, the turn commits
no state change — phase, question index and score are exactly as before,
and a subsequent retry with identical inputs behaves as if the failed
attempt never happened (`sendMessage`'s catch block echoes the pre-call
phase/state back, and `processTutorTurn` commits that echo). -/
theorem failed_generation_preserves_state (p : TutorPhase) (q sc : Nat)
    (inp : Option Nat) (h : usesGenerator p q = true) :
    stepA ⟨p, q, sc⟩ none inp = ⟨p, q, sc⟩ ∧
    ∀ g i, stepA (stepA ⟨p, q, sc⟩ none inp) g i = stepA ⟨p, q, sc⟩ g i := by
  have hmain : stepA ⟨p, q, sc⟩ none inp = ⟨p, q, sc⟩ := by
    cases p
    case intro => rfl
    case teach => exact absurd h (by simp [usesGenerator])
    case ask =>
      rcases hQ : QUESTIONS[q]? with _ | qd <;>
        simp [stepA, sendMessage, fallbackResponse, hQ]
    case evaluate =>
      have hn : ¬ (q + 1 < QUESTIONS.length) := by
        simpa [usesGenerator] using h
      simp [stepA, sendMessage, fallbackResponse, hn]
    case report => rfl
    case completed => rfl
  exact ⟨hmain, fun g i => by rw [hmain]⟩

/-- Witness for C3 at a concrete input: phase `ask`, question 0, a failing
generation attempt with a selected option leaves the session untouched. -/
theorem failed_generation_preserves_state_witness :
    usesGenerator .ask 0 = true ∧ stepA ⟨.ask, 0, 0⟩ none (some 1) = ⟨.ask, 0, 0⟩ :=
  ⟨by decide, (failed_generation_preserves_state .ask 0 0 (some 1) (by decide)).1⟩

/-- An ask-phase generator response that is invalid under the claimed
validation rules: its options array is empty (not of length 3-4) and its
`correct_answer_id` (7) matches no listed option. -/
def invalidAskResponse : PhaseResponse :=
  { phase := .ask
    state := ⟨0, 0⟩
    iface := { title := "Question", content := "Q?", instructions := ""
               input_type := .multipleChoice, options := some [], progress := 10 }
    correct_answer_id := some 7 }

/-- Claim C4, counterexample to the claim as stated: `callGemini` returns
this invalid ask response unchanged as a success — no required-field
validation fires, no corrective retry happens, and no
`ContentGenerationError` is surfaced, even though the options array has
length 0 instead of the required 3-4. -/
theorem invalid_ask_response_accepted :
    callGemini (fun _ => some invalidAskResponse) (some "{}") = .ok invalidAskResponse ∧
    (invalidAskResponse.iface.options.getD []).length = 0 := by
  exact ⟨rfl, rfl⟩

/-- Claim C4 (amended): `callGemini` performs no structural validation and
no retry.  A thrown generation call surfaces the failure message
immediately; a non-empty response is fence-cleaned and handed to
`JSON.parse`, and whatever object parses is returned as-is regardless of
phase or fields; a parse failure surfaces the failure message immediately
with no second generation attempt (the source makes exactly one
`generateContent` call per invocation). -/
theorem callGemini_no_validation_no_retry
    (parse : String → Option PhaseResponse) (t : String) :
    callGemini parse none = .error geminiFailureMessage ∧
    (∀ r, jsTrim t ≠ "" → parse (cleanFences (jsTrim t)) = some r →
      callGemini parse (some t) = .ok r) ∧
    (jsTrim t ≠ "" → parse (cleanFences (jsTrim t)) = none →
      callGemini parse (some t) = .error geminiFailureMessage) := by
  refine ⟨rfl, ?_, ?_⟩
  · intro r hne hp
    simp [callGemini, hne, hp]
  · intro hne hp
    simp [callGemini, hne, hp]

/-- A teach-phase generator response that is invalid under the claimed
validation rules: it carries a `correct_answer_id` although teach responses
must not. -/
def strayTeachResponse : PhaseResponse :=
  { phase := .teach
    state := ⟨0, 0⟩
    iface := { title := "Lesson", content := "Bonjour", instructions := ""
               input_type := .none, options := none, progress := 10 }
    correct_answer_id := some 2 }

/-- Witness for the amended C4 at a concrete input: a parse producing a
teach response with a stray `correct_answer_id` is accepted unchanged. -/
theorem callGemini_no_validation_no_retry_witness :
    callGemini (fun _ => some strayTeachResponse) (some "{}") = .ok strayTeachResponse :=
  (callGemini_no_validation_no_retry (fun _ => some strayTeachResponse) "{}").2.1
    strayTeachResponse (by decide) rfl

/-- Claim C5: the `exit` command forces the next phase to `completed` in
every current phase, with the numeric state frozen at its pre-call values,
for any pending selection context (the selected-option label is ignored by
the rule) and any question budget; and the raw text `exit` classifies to
the Exit command in every phase, so the rule applies whether or not an
answer selection is pending (`handleExit` submits the text unconditionally). -/
theorem exit_forces_completed (p : PhaseB) (st : BState)
    (lbl : Option String) (total : Nat) :
    promptCommandAdvance p st lbl .exit total = (.completed, st) ∧
    classifyCommand "exit" p = .exit := by
  refine ⟨rfl, ?_⟩
  cases p <;> rfl

/-- Claim C6, counterexample to the claim as stated: at phase `completed`
with question index 0 the code yields progress 10 (it falls through to the
`10 + q * 18` branch), while the claim demands 100 for `completed`. -/
theorem completed_progress_not_100 :
    getProgress 0 .completed = 10 ∧
    specProgress .completed 0 QUESTIONS.length = 100 ∧ (10 : Nat) ≠ 100 := by
  decide

/-- Claim C6 (amended): for `0 ≤ q ≤ totalQuestions`, `getProgress` is the
claimed pure function of (phase, questionIndex, totalQuestions) — 0 for
intro, 10 for teach, `10 + round(q / total * 90)` for ask/evaluate, 100 for
report — except that `completed` yields 100 only when the index is
exhausted (`q ≥ totalQuestions`) and otherwise falls through to the
ask/evaluate formula; determinism is immediate since it is a pure
function. -/
theorem getProgress_eq_spec (q : Nat) (p : TutorPhase)
    (h : q ≤ QUESTIONS.length) :
    getProgress q p =
      (if p = .completed ∧ q < QUESTIONS.length
       then 10 + roundHalfUp (q * 90) QUESTIONS.length
       else specProgress p q QUESTIONS.length) := by
  have h5 : q ≤ 5 := by simpa [QUESTIONS] using h
  interval_cases q <;> cases p <;> decide

/-- Witness for the amended C6 at a concrete input: question index 2 in
phase `ask`. -/
theorem getProgress_eq_spec_witness :
    getProgress 2 .ask =
      (if TutorPhase.ask = .completed ∧ 2 < QUESTIONS.length
       then 10 + roundHalfUp (2 * 90) QUESTIONS.length
       else specProgress .ask 2 QUESTIONS.length) :=
  getProgress_eq_spec 2 .ask (by decide)

/-- Claim C7: calling the UI advance in phase `ask` with no answer
selection signals the missing-input error and issues no turn — the
`ActionResult.error` outcome of `handleAction` performs no state update and
no generation request (the source does `setError(...); return;`), so the
phase and state are left untouched and not silently repaired. -/
theorem ask_without_selection_errors (q sc : Nat) :
    handleAction .ask q sc none = .error "Please select an answer." := rfl

/-- Claim C8, counterexample to the claim as stated: classification is not
a function of the raw text alone, and not an exact-vocabulary match — the
raw text `continue` (outside the claimed vocabulary) classifies to Resume
when the current phase is `paused` and to Unrecognized otherwise. -/
theorem classify_depends_on_phase :
    classifyCommand "continue" .paused = .resume ∧
    classifyCommand "continue" .intro = .unrecognized := by
  decide

/-- Claim C8 (amended): classification is a deterministic function of the
raw text together with whether the current phase is `paused`: the text is
trimmed, lowercased and matched exactly against the vocabulary — review,
clarify, report_issue, pause and exit classify in every phase, resume
classifies only while paused (it is Unrecognized otherwise), continue
classifies to Resume while paused, and anything else is Unrecognized;
classifying the same raw text twice in phases with equal pausedness yields
the same variant. -/
theorem classify_deterministic (raw : String) (p q : PhaseB)
    (h : p = .paused ↔ q = .paused) :
    classifyCommand raw p = classifyCommand raw q ∧
    classifyCommand "review" p = .review ∧
    classifyCommand "clarify" p = .clarify ∧
    classifyCommand "report_issue" p = .reportIssue ∧
    classifyCommand "pause" p = .pause ∧
    classifyCommand "exit" p = .exit ∧
    (p ≠ .paused → classifyCommand "resume" p = .unrecognized) ∧
    classifyCommand "resume" .paused = .resume := by
  refine ⟨?_, ?_, ?_, ?_, ?_, ?_, ?_, by decide⟩
  · cases p <;> cases q <;>
      simp_all [classifyCommand, handleCommandSubmit, promptClassify]
  all_goals cases p <;> simp_all <;> decide

/-- Witness for the amended C8 at a concrete input: the raw text `Review`
classifies identically in the non-paused phases `intro` and `teach`. -/
theorem classify_deterministic_witness :
    classifyCommand "Review" .intro = classifyCommand "Review" .teach :=
  (classify_deterministic "Review" .intro .teach (by decide)).1

/-- Claim C9: answer correctness is decided locally by the client, not by
the generator.  In variant A, the `ask` turn returns phase `evaluate` with
the score incremented by exactly 1 iff the selected id equals the stored
`correctAnswerId` of the current question, independently of the generated
text `g`.  In variant B, `handleOptionSelect` transitions the refs to
`evaluate` with the score incremented by exactly 1 iff the selected id
equals the stored `correctAnswerId`, and that decision is the correctness
flag sent onward. -/
theorem answer_scored_locally (q sc : Nat) (g : String) (i : Nat)
    (st : TutorStateB) (sel : Nat) (lbl : String)
    (hq : q < QUESTIONS.length) (hp : st.currentPhase = .ask) :
    stepA ⟨.ask, q, sc⟩ (some g) (some i) =
      ⟨.evaluate, q,
        if i = (QUESTIONS.get ⟨q, hq⟩).correctAnswerId then sc + 1 else sc⟩ ∧
    handleOptionSelect st false sel lbl =
      some ({ st with
                score := if st.correctAnswerId = some sel then st.score + 1
                         else st.score
                question_index := st.question_index + 1
                selectedOptionLabel := some lbl
                currentPhase := .evaluate },
            decide (st.correctAnswerId = some sel)) := by
  constructor
  · simp only [stepA, sendMessage, List.getElem?_eq_getElem hq]
    split <;> simp_all
  · simp [handleOptionSelect, hp]

/-- Witness for C9 at a concrete input: question 0 with the correct option
1 selected in variant A, and a variant-B ref state holding correct id 1
with option 1 selected. -/
theorem answer_scored_locally_witness :
    stepA ⟨.ask, 0, 0⟩ (some "g") (some 1) = ⟨.evaluate, 0, 1⟩ ∧
    handleOptionSelect ⟨0, 0, .ask, some 1, none⟩ false 1 "Hello / Good day" =
      some (⟨1, 1, .evaluate, some 1, some "Hello / Good day"⟩, true) := by
  have h := answer_scored_locally 0 0 "g" 1 ⟨0, 0, .ask, some 1, none⟩ 1
    "Hello / Good day" (by decide) rfl
  refine ⟨?_, ?_⟩
  · rw [h.1]
    decide
  · rw [h.2]
    decide

/-- Claim C10: selecting an option is a no-op outside the `ask` phase or
while a turn is in flight — `handleOptionSelect` returns without touching
the question index, score or phase and without issuing a generation
request (modelled by the `none` outcome). -/
theorem optionSelect_noop_outside_ask (st : TutorStateB) (isLoading : Bool)
    (sel : Nat) (lbl : String)
    (h : st.currentPhase ≠ .ask ∨ isLoading = true) :
    handleOptionSelect st isLoading sel lbl = none := by
  rcases h with h | h
  · simp [handleOptionSelect, h]
  · subst h
    simp [handleOptionSelect]

/-- Witness for C10 at a concrete input: a selection attempted in phase
`intro` is ignored. -/
theorem optionSelect_noop_outside_ask_witness :
    handleOptionSelect ⟨0, 0, .intro, none, none⟩ false 0 "x" = none :=
  optionSelect_noop_outside_ask ⟨0, 0, .intro, none, none⟩ false 0 "x"
    (Or.inl (by decide))

end FrenchTutor
